import Mathlib

/-!
Verification of the probe-listener plugin core (`lib/index.js`):
probe configuration validation (`_configureProbes`), hook-table construction
(`_buildHooksList` / `_addEventToHooks`), the KDC connection error handling
(`connectToKDC`), and measure dispatch (`_sendPayload` and the four
probe-kind handlers), shallowly embedded as pure Lean functions.
-/

namespace ProbeListener

/-- A JavaScript value that can sit in a probe-declaration field:
either an array of event-name strings or a plain string.
This covers every distinction the validator makes (`Array.isArray`,
truthiness — the empty string is falsy, arrays are always truthy). -/
inductive JField where
  | arr (xs : List String)
  | str (s : String)
deriving DecidableEq, Repr

/-- A raw probe declaration, as found in the plugin configuration:
every field may be absent (`none`), mirroring a missing JS property. -/
structure RawProbe where
  type : Option String := none
  hooks : Option JField := none
  increasers : Option JField := none
  decreasers : Option JField := none
  index : Option String := none
  collection : Option String := none
deriving DecidableEq, Repr

/-- A validated probe: the raw declaration (deep-cloned by the code)
with the mapping key injected as its `name` attribute. -/
structure Probe extends RawProbe where
  name : String
deriving DecidableEq, Repr

/-- JS truthiness of an optional string field (`!probe.type`):
absent and the empty string are falsy. -/
def truthyStr : Option String → Bool
  | none => false
  | some s => !(s == "")

/-- JS truthiness of an optional `JField` (`!probe.hooks`):
absent is falsy, arrays are always truthy, a string is truthy iff non-empty. -/
def truthyF : Option JField → Bool
  | none => false
  | some (.arr _) => true
  | some (.str s) => !(s == "")

/-- `Array.isArray` on an optional field. -/
def isArr : Option JField → Bool
  | some (.arr _) => true
  | _ => false

/-- The list of elements `_.intersection` sees in a field:
lodash casts every non-array argument to the empty array. -/
def fieldList : Option JField → List String
  | some (.arr xs) => xs
  | _ => []

/-- `_.intersection(xs, ys).length > 0`: the two lists share an element. -/
def intersects (xs ys : List String) : Bool :=
  xs.any fun x => ys.contains x

/-- The supported probe types (`['counter', 'monitor', 'watcher', 'sampler']`). -/
def supportedTypes : List String := ["counter", "monitor", "watcher", "sampler"]

/-- The per-probe validation performed inside the loop of `_configureProbes`
(lines 174–219): the declaration is deep-cloned, the key is injected as
`name`, and each structural check throws an `Error` with the exact message
of the source.  Throwing is modelled by `Except.error`. -/
def checkProbe (name : String) (p : RawProbe) : Except String Probe :=
  let t := p.type.getD ""
  if !(truthyStr p.type) then
    .error s!"plugin-probe: [probe: {name}] Configuration error: missing \"type\" parameter"
  else if !(supportedTypes.contains t) then
    .error s!"plugin-probe: [probe: {name}] Configuration error: type \"{t}\" is not supported"
  else if t == "monitor" && (!(truthyF p.hooks) || !(isArr p.hooks)) then
    .error s!"plugin-probe: [probe: {name}] Configuration error: missing \"hooks\""
  else if t == "counter" && !(truthyF p.increasers) && !(truthyF p.decreasers) then
    .error s!"plugin-probe: [probe: {name}] Configuration error: missing \"increasers\" or \"decreasers\""
  else if t == "counter" && truthyF p.increasers && !(isArr p.increasers) then
    .error s!"plugin-probe: [probe: {name}] Configuration error: \"increasers\" must be an array"
  else if t == "counter" && truthyF p.decreasers && !(isArr p.decreasers) then
    .error s!"plugin-probe: [probe: {name}] Configuration error: \"decreasers\" must be an array"
  else if t == "counter" && intersects (fieldList p.increasers) (fieldList p.decreasers) then
    .error s!"plugin-probe: [probe: {name}] Configuration error: an event cannot be set both to increase and to decrease a counter"
  else if (t == "watcher" || t == "sampler") && (!(truthyStr p.index) || !(truthyStr p.collection)) then
    .error s!"plugin-probe: [probe: {name}] Configuration error: missing \"index\" or \"collection\""
  else
    .ok { toRawProbe := p, name := name }

/-- The loop of `_configureProbes` over `Object.keys(probes)`:
builds the output mapping key by key, aborting with the thrown error
on the first malformed probe. -/
def configureList : List (String × RawProbe) → Except String (List (String × Probe))
  | [] => .ok []
  | (n, p) :: rest =>
    match checkProbe n p with
    | .error e => .error e
    | .ok pr =>
      match configureList rest with
      | .error e => .error e
      | .ok out => .ok ((n, pr) :: out)

/-- `_configureProbes` (lines 166–223): `none` models a `null`/absent
`probes` argument; `!probes || _.isEmpty(probes)` short-circuits to the
empty mapping. -/
def configureProbes (probes : Option (List (String × RawProbe))) :
    Except String (List (String × Probe)) :=
  match probes with
  | none => .ok []
  | some l => configureList l

/-! ### Hook table (`_buildHooksList`, `_addEventToHooks`) -/

/-- A hook-table entry: in JS either a single handler-name string or an
array of handler names (`_addEventToHooks` promotes the former to the
latter when a second distinct kind registers). -/
inductive HookVal where
  | single (k : String)
  | multi (ks : List String)
deriving DecidableEq, Repr

/-- A hook table: event name → entry (`none` models an absent key). -/
def Hooks : Type := String → Option HookVal

/-- The table with no keys (`{}`). -/
def emptyHooks : Hooks := fun _ => none

/-- `_addEventToHooks` (lines 268–282): absent key → single kind;
single different kind → two-element array in first-seen order;
array lacking the kind → append; otherwise no-op. -/
def addEventToHooks (hooks : Hooks) (event probeType : String) : Hooks :=
  fun e =>
    if e = event then
      match hooks event with
      | none => some (.single probeType)
      | some (.single k) =>
        if k ≠ probeType then some (.multi [k, probeType]) else some (.single k)
      | some (.multi ks) =>
        if ks.contains probeType then some (.multi ks)
        else some (.multi (ks ++ [probeType]))
    else hooks e

/-- The elements `[].concat(x)` contributes for one field: an absent field
contributes one `undefined` (removed by the truthiness filter), a string is
appended as a single element, an array is spread. -/
def fieldElems : Option JField → List String
  | none => []
  | some (.arr xs) => xs
  | some (.str s) => [s]

/-- The event list of a `monitor`/`counter` probe (lines 239–241):
`[].concat(hooks, increasers, decreasers).filter(value => value)` —
the filter drops falsy entries, i.e. empty strings. -/
def hookEvents (p : Probe) : List String :=
  (fieldElems p.hooks ++ fieldElems p.increasers ++ fieldElems p.decreasers).filter
    fun s => !(s == "")

/-- The three fixed structural events registered for every
`watcher`/`sampler` probe (lines 250–252). -/
def fixedEvents : List String :=
  ["realtime:beforePublish", "document:beforeCreate", "document:beforeCreateOrReplace"]

/-- The body of the `_buildHooksList` loop for one probe (lines 237–254). -/
def addProbeHooks (hooks : Hooks) (p : Probe) : Hooks :=
  let t := p.type.getD ""
  let h1 :=
    if ["monitor", "counter"].contains t then
      (hookEvents p).foldl (fun h e => addEventToHooks h e t) hooks
    else hooks
  if ["watcher", "sampler"].contains t then
    fixedEvents.foldl (fun h e => addEventToHooks h e t) h1
  else h1

/-- `_buildHooksList` (lines 233–257): fold the per-probe registration
over the validated probes, in mapping order, starting from `{}`. -/
def buildHooksList (probes : List Probe) : Hooks :=
  probes.foldl addProbeHooks emptyHooks

/-! ### `init` (lines 75–96) -/

/-- The plugin configuration after `Object.assign` with the defaults;
only the fields the embedded core reads are kept. -/
structure PluginConfig where
  maxKdcConnectionErrors : Nat := 10
  probes : Option (List (String × RawProbe)) := some []

/-- The hook table `init` leaves in `this.hooks`: `{}` from the
constructor unless at least one probe validated, in which case the built
table plus the reserved `core:kuzzleStart → connectToKDC` binding
(written last, so it overwrites any probe-registered entry). -/
def initHooks (config : PluginConfig) : Except String Hooks :=
  match configureProbes config.probes with
  | .error e => .error e
  | .ok probes =>
    if probes.length > 0 then
      let h := buildHooksList (probes.map Prod.snd)
      .ok fun e =>
        if e = "core:kuzzleStart" then some (.single "connectToKDC") else h e
    else
      .ok emptyHooks

/-! ### KDC connection error handling (`connectToKDC`, lines 98–122) -/

/-- The observable connection-manager state: the error counter set up by
`init` (line 88) and counts of the side effects the `catch` handler can
produce. -/
structure KDCState where
  kdcConnectionErrorCount : Nat
  infoLogs : Nat
  errorLogs : Nat
  disconnectCalls : Nat
deriving DecidableEq, Repr

/-- The state right after `init`: counter zeroed, no side effects yet. -/
def initKDCState : KDCState :=
  { kdcConnectionErrorCount := 0, infoLogs := 0, errorLogs := 0, disconnectCalls := 0 }

/-- The `catch` branch of `connectToKDC` (lines 108–121), run once per
connection failure: below the maximum, bump the counter and log a retry
notice; at the maximum, log the terminal error and call
`this.client.disconnect()`. -/
def onConnectionError (max : Nat) (s : KDCState) : KDCState :=
  if s.kdcConnectionErrorCount < max then
    { s with
      kdcConnectionErrorCount := s.kdcConnectionErrorCount + 1
      infoLogs := s.infoLogs + 1 }
  else
    { s with errorLogs := s.errorLogs + 1, disconnectCalls := s.disconnectCalls + 1 }

/-- The terminal state: `disconnect()` has been called, so the transport
stops reconnecting and the collector is considered unreachable. -/
def permanentlyDisabled (s : KDCState) : Bool :=
  s.disconnectCalls != 0

/-- Feed `n` consecutive connection failures to the error handler against
a transport whose `connect()` always fails; once `disconnect()` has been
issued the transport no longer attempts connections, so no further
failures reach the handler. -/
def runFailures (max : Nat) : Nat → KDCState → KDCState
  | 0, s => s
  | n + 1, s =>
    if permanentlyDisabled s then s
    else runFailures max n (onConnectionError max s)

/-! ### Measure dispatch (`_sendPayload`, lines 289–307) -/

/-- A triggering payload object: the dispatcher only uses its
`serialize()` capability. -/
structure Payload where
  serialized : String
deriving DecidableEq, Repr

/-- `payload.serialize()`. -/
def Payload.serialize (p : Payload) : String := p.serialized

/-- The request built by `_sendPayload` (lines 290–301). -/
structure MeasureRequest where
  controller : String
  action : String
  bodyEvent : String
  bodyPayload : Option String
deriving DecidableEq, Repr

/-- Request construction: fixed controller `kuzzle-plugin-probe/measure`,
`action` = probe type, `body.event` = event, and `body.payload` set to
`payload.serialize()` only when a payload was passed (`if (payload)`). -/
def buildRequest (probeType event : String) (payload : Option Payload) : MeasureRequest :=
  { controller := "kuzzle-plugin-probe/measure"
    action := probeType
    bodyEvent := event
    bodyPayload := payload.map Payload.serialize }

/-- `_sendPayload` with its `catch` (lines 303–306), against a transport
whose `query` outcome is given by `query`.  Returns the requests issued,
the error-log lines produced, and the settled result of the returned
promise (the `catch` handler returns normally, so a failed query settles
as a non-error outcome). -/
def sendPayload (query : MeasureRequest → Except String Unit)
    (probeType event : String) (payload : Option Payload) :
    List MeasureRequest × List String × Except String Unit :=
  let req := buildRequest probeType event payload
  match query req with
  | .ok u => ([req], [], .ok u)
  | .error e => ([req], [s!"Cannot send payload to KDC: {e}"], .ok ())

/-- `monitor(payload, event)` (lines 128–131): no payload forwarded. -/
def monitorRequest (event : String) : MeasureRequest :=
  buildRequest "monitor" event none

/-- `counter(payload, event)` (lines 137–140): no payload forwarded. -/
def counterRequest (event : String) : MeasureRequest :=
  buildRequest "counter" event none

/-- `watcher(payload, event)` (lines 146–149): forwards the payload. -/
def watcherRequest (payload : Payload) (event : String) : MeasureRequest :=
  buildRequest "watcher" event (some payload)

/-- `sampler(payload, event)` (lines 155–158): forwards the payload. -/
def samplerRequest (payload : Payload) (event : String) : MeasureRequest :=
  buildRequest "sampler" event (some payload)

/-! ### Derived observations used by the theorems -/

/-- The probe-kinds registered for an event in a hook table, as a list
(`[]` for an absent key, the singleton for a string entry, the array
itself for an array entry). -/
def kindsAt (h : Hooks) (e : String) : List String :=
  match h e with
  | none => []
  | some (.single k) => [k]
  | some (.multi ks) => ks

/-- Probe `p` registers kind `k` for event `e` during hook-table
construction: through its event list if it is a `monitor`/`counter`,
through the three fixed structural events if it is a `watcher`/`sampler`. -/
def contributes (p : Probe) (e k : String) : Prop :=
  (["monitor", "counter"].contains (p.type.getD "") = true ∧
    e ∈ hookEvents p ∧ k = p.type.getD "") ∨
  (["watcher", "sampler"].contains (p.type.getD "") = true ∧
    e ∈ fixedEvents ∧ k = p.type.getD "")

/-- A monitor probe listening on `some:event`. -/
def probeMon : Probe :=
  { type := some "monitor", hooks := some (.arr ["some:event"]), name := "m" }

/-- A counter probe increased by `some:event`. -/
def probeCnt : Probe :=
  { type := some "counter", increasers := some (.arr ["some:event"]), name := "c" }

/-- A one-entry hook table: `monitor` registered for `some:event`. -/
def hooksW : Hooks := addEventToHooks emptyHooks "some:event" "monitor"

/-- A well-formed monitor declaration. -/
def monitorGood : RawProbe :=
  { type := some "monitor", hooks := some (.arr ["some:event"]) }

/-- A malformed declaration: the `type` parameter is missing. -/
def probeNoType : RawProbe := {}

/-- A monitor declaration whose `hooks` is an empty array. -/
def monitorEmptyHooks : RawProbe :=
  { type := some "monitor", hooks := some (.arr []) }

/-- A counter declaration whose only supplied list, `increasers`,
is empty. -/
def counterEmptyIncreasers : RawProbe :=
  { type := some "counter", increasers := some (.arr []) }

/-- A well-formed counter declaration. -/
def counterGood : RawProbe :=
  { type := some "counter", increasers := some (.arr ["server:afterInfo"]),
    decreasers := some (.arr ["server:afterNow"]) }

/-! ### Theorems -/

theorem mem_kindsAt_add (h : Hooks) (e' t e k : String) :
    k ∈ kindsAt (addEventToHooks h e' t) e ↔ k ∈ kindsAt h e ∨ (e = e' ∧ k = t) := by
  by_cases he : e = e'
  · subst he
    cases hv : h e with
    | none => simp [kindsAt, addEventToHooks, hv]
    | some v =>
      cases v with
      | single k' =>
        by_cases hk : k' = t
        · subst hk; simp [kindsAt, addEventToHooks, hv]
        · simp [kindsAt, addEventToHooks, hv, hk]
      | multi ks =>
        by_cases hk : t ∈ ks
        · simp [kindsAt, addEventToHooks, hv, hk]
          intro hkt; subst hkt; exact hk
        · simp [kindsAt, addEventToHooks, hv, hk]
  · simp [kindsAt, addEventToHooks, he]

theorem mem_kindsAt_foldadd (evs : List String) (h : Hooks) (t e k : String) :
    k ∈ kindsAt (evs.foldl (fun h2 ev => addEventToHooks h2 ev t) h) e ↔
      k ∈ kindsAt h e ∨ (e ∈ evs ∧ k = t) := by
  induction evs generalizing h with
  | nil => simp
  | cons ev rest ih =>
    simp only [List.foldl_cons, ih, mem_kindsAt_add, List.mem_cons]
    tauto

theorem mem_kindsAt_addProbe (h : Hooks) (p : Probe) (e k : String) :
    k ∈ kindsAt (addProbeHooks h p) e ↔ k ∈ kindsAt h e ∨ contributes p e k := by
  unfold contributes
  by_cases h1 : ["monitor", "counter"].contains (p.type.getD "") <;>
    by_cases h2 : ["watcher", "sampler"].contains (p.type.getD "") <;>
      simp only [addProbeHooks, h1, h2, if_true, if_false, Bool.false_eq_true,
        mem_kindsAt_foldadd] <;> tauto

theorem mem_kindsAt_foldProbes (l : List Probe) (h : Hooks) (e k : String) :
    k ∈ kindsAt (l.foldl addProbeHooks h) e ↔
      k ∈ kindsAt h e ∨ ∃ p ∈ l, contributes p e k := by
  induction l generalizing h with
  | nil => simp
  | cons p rest ih =>
    simp only [List.foldl_cons, ih, mem_kindsAt_addProbe, List.mem_cons]
    constructor
    · rintro (( hh | hc) | ⟨q, hq, hcq⟩)
      · exact Or.inl hh
      · exact Or.inr ⟨p, Or.inl rfl, hc⟩
      · exact Or.inr ⟨q, Or.inr hq, hcq⟩
    · rintro (hh | ⟨q, (rfl | hq), hcq⟩)
      · exact Or.inl (Or.inl hh)
      · exact Or.inl (Or.inr hcq)
      · exact Or.inr ⟨q, hq, hcq⟩

theorem mem_kindsAt_build (l : List Probe) (e k : String) :
    k ∈ kindsAt (buildHooksList l) e ↔ ∃ p ∈ l, contributes p e k := by
  unfold buildHooksList
  rw [mem_kindsAt_foldProbes]
  simp [kindsAt, emptyHooks]

/-- C4 counterexample: the validated sets `[probeMon, probeCnt]` and
`[probeCnt, probeMon]` are permutations of one another, yet their hook
tables differ at `some:event` (`["monitor", "counter"]` versus
`["counter", "monitor"]`) — the built mapping is not invariant under
reordering of the probe mapping. -/
theorem C4_counterexample :
    ([probeMon, probeCnt].Perm [probeCnt, probeMon]) ∧
    buildHooksList [probeMon, probeCnt] "some:event" ≠
      buildHooksList [probeCnt, probeMon] "some:event" := by
  refine ⟨List.Perm.swap probeCnt probeMon [], ?_⟩
  decide

/-- C4 (amended): under any permutation of the probe list, the hook
tables register the same set of probe-kinds for every event; only the
order inside a kind-set (first-seen order) may differ, so the exact
mapping values may differ. -/
theorem C4_amended (l1 l2 : List Probe) (hp : l1.Perm l2) (e k : String) :
    k ∈ kindsAt (buildHooksList l1) e ↔ k ∈ kindsAt (buildHooksList l2) e := by
  rw [mem_kindsAt_build, mem_kindsAt_build]
  constructor
  · rintro ⟨p, hpl, hc⟩; exact ⟨p, hp.mem_iff.mp hpl, hc⟩
  · rintro ⟨p, hpl, hc⟩; exact ⟨p, hp.mem_iff.mpr hpl, hc⟩

/-- C4 witness: the amended theorem applied to the concrete two-probe
permutation. -/
theorem C4_witness :
    ([probeMon, probeCnt].Perm [probeCnt, probeMon]) ∧
    ("counter" ∈ kindsAt (buildHooksList [probeMon, probeCnt]) "some:event" ↔
      "counter" ∈ kindsAt (buildHooksList [probeCnt, probeMon]) "some:event") :=
  ⟨List.Perm.swap probeCnt probeMon [],
    C4_amended [probeMon, probeCnt] [probeCnt, probeMon]
      (List.Perm.swap probeCnt probeMon []) "some:event" "counter"⟩

theorem nodup_kindsAt_add (h : Hooks) (e' t : String)
    (hh : ∀ e, (kindsAt h e).Nodup) :
    ∀ e, (kindsAt (addEventToHooks h e' t) e).Nodup := by
  intro e
  by_cases he : e = e'
  · subst he
    have hks := hh e
    cases hv : h e with
    | none => simp [kindsAt, addEventToHooks, hv]
    | some v =>
      cases v with
      | single k' =>
        by_cases hk : k' = t
        · subst hk; simp [kindsAt, addEventToHooks, hv]
        · simp [kindsAt, addEventToHooks, hv, hk]
      | multi ks =>
        simp only [kindsAt, hv] at hks
        by_cases hk : t ∈ ks
        · simp [kindsAt, addEventToHooks, hv, hk, hks]
        · have hnd : (ks ++ [t]).Nodup := by
            simp [List.nodup_append, hks, hk]
          simp [kindsAt, addEventToHooks, hv, hk, hnd]
  · simpa [kindsAt, addEventToHooks, he] using hh e

theorem nodup_kindsAt_foldadd (evs : List String) (h : Hooks) (t : String)
    (hh : ∀ e, (kindsAt h e).Nodup) :
    ∀ e, (kindsAt (evs.foldl (fun h2 ev => addEventToHooks h2 ev t) h) e).Nodup := by
  induction evs generalizing h with
  | nil => exact hh
  | cons ev rest ih =>
    simpa using ih (addEventToHooks h ev t) (nodup_kindsAt_add h ev t hh)

theorem nodup_kindsAt_addProbe (h : Hooks) (p : Probe)
    (hh : ∀ e, (kindsAt h e).Nodup) :
    ∀ e, (kindsAt (addProbeHooks h p) e).Nodup := by
  by_cases h1 : ["monitor", "counter"].contains (p.type.getD "") <;>
    by_cases h2 : ["watcher", "sampler"].contains (p.type.getD "") <;>
      simp only [addProbeHooks, h1, h2, if_true, if_false, Bool.false_eq_true] <;>
        first
          | exact nodup_kindsAt_foldadd _ _ _ (nodup_kindsAt_foldadd _ _ _ hh)
          | exact nodup_kindsAt_foldadd _ _ _ hh
          | exact hh

theorem nodup_kindsAt_foldProbes (l : List Probe) (h : Hooks)
    (hh : ∀ e, (kindsAt h e).Nodup) :
    ∀ e, (kindsAt (l.foldl addProbeHooks h) e).Nodup := by
  induction l generalizing h with
  | nil => exact hh
  | cons p rest ih =>
    simpa using ih (addProbeHooks h p) (nodup_kindsAt_addProbe h p hh)

/-- C5: in every built hook table no probe-kind is represented twice for
an event (the kind list is duplicate-free), and upserting a kind already
equal to or contained in an entry leaves the table pointwise unchanged
(the merge is idempotent). -/
theorem C5_no_duplicate_kinds :
    (∀ (l : List Probe) (e : String), (kindsAt (buildHooksList l) e).Nodup) ∧
    (∀ (h : Hooks) (e k : String), k ∈ kindsAt h e →
      ∀ e', addEventToHooks h e k e' = h e') := by
  constructor
  · intro l e
    exact nodup_kindsAt_foldProbes l emptyHooks
      (fun _ => by simp [kindsAt, emptyHooks]) e
  · intro h e k hk e'
    by_cases he : e' = e
    · subst he
      cases hv : h e' with
      | none => simp [kindsAt, hv] at hk
      | some v =>
        cases v with
        | single k2 =>
          simp only [kindsAt, hv, List.mem_singleton] at hk
          subst hk
          simp [addEventToHooks, hv]
        | multi ks =>
          simp only [kindsAt, hv] at hk
          simp [addEventToHooks, hv, hk]
    · simp [addEventToHooks, he]

/-- C5 witness: the idempotence clause applied to a concrete one-entry
table that already contains `monitor` for `some:event`. -/
theorem C5_witness :
    "monitor" ∈ kindsAt hooksW "some:event" ∧
    addEventToHooks hooksW "some:event" "monitor" "some:event" = hooksW "some:event" :=
  ⟨by decide,
    C5_no_duplicate_kinds.2 hooksW "some:event" "monitor" (by decide) "some:event"⟩

/-- C3: every dispatched request targets the `kuzzle-plugin-probe/measure`
controller with `action` equal to the probe kind and body `{ event }`;
`watcher`/`sampler` additionally carry `payload = payload.serialize()`,
while `monitor`/`counter` requests never contain a `payload` key. -/
theorem C3_request_shape (event : String) (payload : Payload) :
    monitorRequest event =
      { controller := "kuzzle-plugin-probe/measure", action := "monitor",
        bodyEvent := event, bodyPayload := none } ∧
    counterRequest event =
      { controller := "kuzzle-plugin-probe/measure", action := "counter",
        bodyEvent := event, bodyPayload := none } ∧
    watcherRequest payload event =
      { controller := "kuzzle-plugin-probe/measure", action := "watcher",
        bodyEvent := event, bodyPayload := some payload.serialize } ∧
    samplerRequest payload event =
      { controller := "kuzzle-plugin-probe/measure", action := "sampler",
        bodyEvent := event, bodyPayload := some payload.serialize } :=
  ⟨rfl, rfl, rfl, rfl⟩

/-- C8: for every transport behavior, a dispatch issues exactly one query
(no retry), the settled outcome is always the non-error `ok ()` (the
`catch` swallows the failure), and an error line is logged exactly when
the query failed. -/
theorem C8_dispatch_failure_swallowed (query : MeasureRequest → Except String Unit)
    (probeType event : String) (payload : Option Payload) :
    (sendPayload query probeType event payload).1 = [buildRequest probeType event payload] ∧
    (sendPayload query probeType event payload).2.2 = Except.ok () ∧
    ((sendPayload query probeType event payload).2.1 = [] ↔
      (query (buildRequest probeType event payload)).isOk = true) := by
  cases hq : query (buildRequest probeType event payload) <;>
    simp [sendPayload, hq, Except.isOk, Except.toBool]

theorem monitor_hooks_cond (p : RawProbe) :
    (!(truthyF p.hooks) || !(isArr p.hooks)) = !(isArr p.hooks) := by
  cases hh : p.hooks with
  | none => rfl
  | some f => cases f <;> simp [truthyF, isArr]

theorem intersects_eq_false_iff (xs ys : List String) :
    intersects xs ys = false ↔ ∀ x ∈ xs, x ∉ ys := by
  simp [intersects, List.any_eq_false]

/-- C6 counterexample: a monitor declaration whose `hooks` is the empty
array is admitted by validation even though its hooks list is not
non-empty — the code only checks presence and `Array.isArray`, not
emptiness. -/
theorem C6_counterexample :
    (checkProbe "m" monitorEmptyHooks).isOk = true ∧
    fieldList monitorEmptyHooks.hooks = [] := by
  constructor <;> rfl

/-- C6 (amended): validation admits a monitor declaration iff its `hooks`
field is an array, possibly empty; a monitor whose `hooks` is missing or
not an array is rejected with the configuration error naming the probe. -/
theorem C6_amended (n : String) (p : RawProbe) (ht : p.type = some "monitor") :
    ((checkProbe n p).isOk = true ↔ isArr p.hooks = true) ∧
    (isArr p.hooks = false →
      checkProbe n p =
        .error s!"plugin-probe: [probe: {n}] Configuration error: missing \"hooks\"") := by
  constructor
  · simp only [checkProbe, ht, Option.getD_some, truthyStr, supportedTypes,
      monitor_hooks_cond]
    cases ha : isArr p.hooks <;> simp [ha, Except.isOk, Except.toBool]
  · intro ha
    simp only [checkProbe, ht, Option.getD_some, truthyStr, supportedTypes,
      monitor_hooks_cond]
    simp [ha]

/-- C6 witness: the amended equivalence at the concrete empty-hooks
monitor declaration. -/
theorem C6_witness :
    monitorEmptyHooks.type = some "monitor" ∧
    ((checkProbe "m" monitorEmptyHooks).isOk = true ↔
      isArr monitorEmptyHooks.hooks = true) :=
  ⟨rfl, (C6_amended "m" monitorEmptyHooks rfl).1⟩

/-- C7 counterexample: a counter declaration whose only supplied list is
the empty `increasers` array is admitted by validation although both its
lists are empty — the code requires a field to be present, not a list to
be non-empty. -/
theorem C7_counterexample :
    (checkProbe "c" counterEmptyIncreasers).isOk = true ∧
    fieldList counterEmptyIncreasers.increasers = [] ∧
    fieldList counterEmptyIncreasers.decreasers = [] :=
  ⟨rfl, rfl, rfl⟩

/-- C7 (amended): validation admits a counter declaration iff at least
one of `increasers`/`decreasers` is present and truthy, every truthy one
of them is an array, and no event appears in both lists (non-arrays
counting as empty); emptiness of the lists is not required. -/
theorem C7_amended (n : String) (p : RawProbe) (ht : p.type = some "counter") :
    (checkProbe n p).isOk = true ↔
      ((truthyF p.increasers = true ∨ truthyF p.decreasers = true) ∧
       (truthyF p.increasers = true → isArr p.increasers = true) ∧
       (truthyF p.decreasers = true → isArr p.decreasers = true) ∧
       ∀ x ∈ fieldList p.increasers, x ∉ fieldList p.decreasers) := by
  simp only [checkProbe, ht, Option.getD_some, truthyStr, supportedTypes]
  by_cases hi : truthyF p.increasers <;>
    by_cases hd : truthyF p.decreasers <;>
      by_cases hia : isArr p.increasers <;>
        by_cases hda : isArr p.decreasers <;>
          by_cases hint : intersects (fieldList p.increasers) (fieldList p.decreasers) <;>
            simp [hi, hd, hia, hda, hint, Except.isOk, Except.toBool,
              ← intersects_eq_false_iff]

/-- C7 witness: the amended equivalence at a concrete well-formed counter
with disjoint non-empty lists. -/
theorem C7_witness :
    counterGood.type = some "counter" ∧
    ((checkProbe "c" counterGood).isOk = true ↔
      ((truthyF counterGood.increasers = true ∨ truthyF counterGood.decreasers = true) ∧
       (truthyF counterGood.increasers = true → isArr counterGood.increasers = true) ∧
       (truthyF counterGood.decreasers = true → isArr counterGood.decreasers = true) ∧
       ∀ x ∈ fieldList counterGood.increasers, x ∉ fieldList counterGood.decreasers)) :=
  ⟨rfl, C7_amended "c" counterGood rfl⟩

/-- C1 counterexample: a configuration holding one well-formed and one
malformed probe makes `_configureProbes` throw (the embedding returns the
thrown error): validation does raise, and the well-formed probe is not
part of any returned mapping. -/
theorem C1_counterexample :
    configureProbes (some [("goodProbe", monitorGood), ("badProbe", probeNoType)]) =
      .error "plugin-probe: [probe: badProbe] Configuration error: missing \"type\" parameter" := by
  rfl

theorem configureList_ok_iff (l : List (String × RawProbe)) :
    (configureList l).isOk = true ↔ ∀ np ∈ l, (checkProbe np.1 np.2).isOk = true := by
  induction l with
  | nil => simp [configureList, Except.isOk, Except.toBool]
  | cons np rest ih =>
    obtain ⟨n, p⟩ := np
    cases hc : checkProbe n p with
    | error e =>
      simp only [configureList, hc]
      constructor
      · intro h; exact absurd h (by simp [Except.isOk, Except.toBool])
      · intro h
        have hmem := h (n, p) (List.mem_cons_self _ _)
        rw [hc] at hmem
        exact absurd hmem (by simp [Except.isOk, Except.toBool])
    | ok pr =>
      cases hr : configureList rest with
      | error e2 =>
        simp only [configureList, hc, hr]
        constructor
        · intro h; exact absurd h (by simp [Except.isOk, Except.toBool])
        · intro h
          have hrest : ∀ np ∈ rest, (checkProbe np.1 np.2).isOk = true :=
            fun np hnp => h np (List.mem_cons_of_mem _ hnp)
          have hok := ih.mpr hrest
          rw [hr] at hok
          exact absurd hok (by simp [Except.isOk, Except.toBool])
      | ok out =>
        simp only [configureList, hc, hr]
        constructor
        · intro _ np hnp
          rcases List.mem_cons.mp hnp with heq | hmem
          · subst heq; simp [hc, Except.isOk, Except.toBool]
          · exact (ih.mp (by rw [hr]; rfl)) np hmem
        · intro _; rfl

theorem configureList_keys (l : List (String × RawProbe))
    (out : List (String × Probe)) (h : configureList l = .ok out) :
    out.map Prod.fst = l.map Prod.fst := by
  induction l generalizing out with
  | nil =>
    simp only [configureList] at h
    cases h
    rfl
  | cons np rest ih =>
    obtain ⟨n, p⟩ := np
    cases hc : checkProbe n p with
    | error e => simp [configureList, hc] at h
    | ok pr =>
      cases hr : configureList rest with
      | error e2 => simp [configureList, hc, hr] at h
      | ok out2 =>
        simp only [configureList, hc, hr] at h
        cases h
        simp [ih out2 hr]

/-- C1 (amended): validation raises on the first malformed probe,
aborting the whole configuration — it succeeds (returning the mapping
with exactly the input's keys) iff every probe in the input is
well-formed. -/
theorem C1_amended (l : List (String × RawProbe)) :
    ((configureProbes (some l)).isOk = true ↔
      ∀ np ∈ l, (checkProbe np.1 np.2).isOk = true) ∧
    (∀ out, configureProbes (some l) = .ok out → out.map Prod.fst = l.map Prod.fst) :=
  ⟨configureList_ok_iff l, fun out h => configureList_keys l out h⟩

/-- C1 witness: the key-preservation clause applied to a concrete
all-well-formed configuration. -/
theorem C1_witness :
    ([("goodProbe", ({ toRawProbe := monitorGood, name := "goodProbe" } : Probe))].map
        Prod.fst) = [("goodProbe", monitorGood)].map Prod.fst :=
  (C1_amended [("goodProbe", monitorGood)]).2
    [("goodProbe", { toRawProbe := monitorGood, name := "goodProbe" })] rfl

theorem checkProbe_ok_shape (n : String) (p : RawProbe) (pr : Probe)
    (h : checkProbe n p = .ok pr) : pr = { toRawProbe := p, name := n } := by
  simp only [checkProbe] at h
  repeat' split at h
  all_goals simp_all

/-- C9: validation works on an independent copy of each declaration
(the embedding is pure over the input, mirroring the `cloneDeep` in the
code, so the caller's mapping is untouched), and each returned probe
keeps its raw fields unchanged with the probe's key injected as its
`name` attribute. -/
theorem C9_validation_frame (l : List (String × RawProbe))
    (out : List (String × Probe)) (h : configureProbes (some l) = .ok out) :
    List.Forall₂
      (fun (np : String × RawProbe) (op : String × Probe) =>
        op.1 = np.1 ∧ op.2.name = np.1 ∧ op.2.toRawProbe = np.2) l out := by
  simp only [configureProbes] at h
  induction l generalizing out with
  | nil =>
    simp only [configureList] at h
    cases h
    exact List.Forall₂.nil
  | cons np rest ih =>
    obtain ⟨n, p⟩ := np
    cases hc : checkProbe n p with
    | error e => simp [configureList, hc] at h
    | ok pr =>
      cases hr : configureList rest with
      | error e2 => simp [configureList, hc, hr] at h
      | ok out2 =>
        simp only [configureList, hc, hr] at h
        cases h
        have hpr := checkProbe_ok_shape n p pr hc
        exact List.Forall₂.cons ⟨rfl, by simp [hpr]⟩ (ih out2 hr)

/-- C9 witness: the frame/name-injection theorem at a concrete
one-probe configuration. -/
theorem C9_witness :
    List.Forall₂
      (fun (np : String × RawProbe) (op : String × Probe) =>
        op.1 = np.1 ∧ op.2.name = np.1 ∧ op.2.toRawProbe = np.2)
      [("goodProbe", monitorGood)]
      [("goodProbe", { toRawProbe := monitorGood, name := "goodProbe" })] :=
  C9_validation_frame [("goodProbe", monitorGood)]
    [("goodProbe", { toRawProbe := monitorGood, name := "goodProbe" })] rfl

theorem runFailures_frozen (max j : Nat) (s : KDCState)
    (hs : permanentlyDisabled s = true) : runFailures max j s = s := by
  cases j with
  | zero => rfl
  | succ n => simp [runFailures, hs]

theorem runFailures_upto (max : Nat) : ∀ (j c : Nat), c + j ≤ max →
    runFailures max j
        { kdcConnectionErrorCount := c, infoLogs := c, errorLogs := 0, disconnectCalls := 0 } =
      { kdcConnectionErrorCount := c + j, infoLogs := c + j, errorLogs := 0,
        disconnectCalls := 0 } := by
  intro j
  induction j with
  | zero => intro c h; rfl
  | succ jj ih =>
    intro c h
    have hc : c < max := by omega
    simp only [runFailures, permanentlyDisabled]
    rw [if_neg (by simp)]
    have hstep : onConnectionError max
        { kdcConnectionErrorCount := c, infoLogs := c, errorLogs := 0, disconnectCalls := 0 } =
        { kdcConnectionErrorCount := c + 1, infoLogs := c + 1, errorLogs := 0,
          disconnectCalls := 0 } := by
      simp [onConnectionError, hc]
    rw [hstep, ih (c + 1) (by omega),
      show c + 1 + jj = c + (jj + 1) from by omega]

theorem runFailures_add (max a b : Nat) (s : KDCState) :
    runFailures max (a + b) s = runFailures max b (runFailures max a s) := by
  induction a generalizing s with
  | zero => simp [runFailures]
  | succ aa ih =>
    by_cases hs : permanentlyDisabled s
    · rw [runFailures_frozen max (aa + 1 + b) s hs, runFailures_frozen max (aa + 1) s hs,
        runFailures_frozen max b s hs]
    · have hs2 : permanentlyDisabled s = false := by
        cases hps : permanentlyDisabled s
        · rfl
        · exact absurd hps hs
      rw [show aa + 1 + b = (aa + b) + 1 from by omega]
      simp only [runFailures, hs2, Bool.false_eq_true, if_false]
      exact ih (onConnectionError max s)

/-- C2 counterexample: with `maxKdcConnectionErrors = 2`, after exactly
2 consecutive connection failures the manager is not permanently
disabled and no `disconnect()` has been issued — the claimed bound of
exactly `maxConnectionErrors` failures is off by one. -/
theorem C2_counterexample :
    permanentlyDisabled (runFailures 2 2 initKDCState) = false ∧
    (runFailures 2 2 initKDCState).disconnectCalls = 0 := by
  decide

/-- C2 (amended): against a transport whose `connect()` always fails, the
manager stays enabled through the first `maxKdcConnectionErrors` failures
(each only counted and logged), and any run of at least
`maxKdcConnectionErrors + 1` failures ends permanently disabled with
exactly one terminal error log and exactly one `disconnect()` call, the
counter frozen at the maximum and no further attempts made. -/
theorem C2_amended (max : Nat) :
    permanentlyDisabled (runFailures max max initKDCState) = false ∧
    (∀ n, max + 1 ≤ n →
      runFailures max n initKDCState =
        { kdcConnectionErrorCount := max, infoLogs := max, errorLogs := 1,
          disconnectCalls := 1 }) := by
  have hmax : runFailures max max initKDCState =
      { kdcConnectionErrorCount := max, infoLogs := max, errorLogs := 0,
        disconnectCalls := 0 } := by
    have := runFailures_upto max max 0 (by omega)
    simpa [initKDCState] using this
  constructor
  · rw [hmax]; rfl
  · intro n hn
    obtain ⟨k, rfl⟩ : ∃ k, n = max + 1 + k := ⟨n - (max + 1), by omega⟩
    rw [show max + 1 + k = max + (1 + k) from by omega,
      runFailures_add max max (1 + k) initKDCState, hmax,
      show 1 + k = k + 1 from by omega]
    simp only [runFailures, permanentlyDisabled]
    rw [if_neg (by simp)]
    have hstep : onConnectionError max
        { kdcConnectionErrorCount := max, infoLogs := max, errorLogs := 0,
          disconnectCalls := 0 } =
        { kdcConnectionErrorCount := max, infoLogs := max, errorLogs := 1,
          disconnectCalls := 1 } := by
      simp [onConnectionError]
    rw [hstep]
    exact runFailures_frozen max k _ rfl

/-- C2 witness: the amended theorem at `maxKdcConnectionErrors = 2` and a
run of 3 failures. -/
theorem C2_witness :
    permanentlyDisabled (runFailures 2 2 initKDCState) = false ∧
    runFailures 2 3 initKDCState =
      { kdcConnectionErrorCount := 2, infoLogs := 2, errorLogs := 1, disconnectCalls := 1 } :=
  ⟨(C2_amended 2).1, (C2_amended 2).2 3 (by omega)⟩

/-- C10: when the configured probes mapping is absent or empty, `init`
leaves the hooks mapping empty — no event is bound, and in particular the
reserved `core:kuzzleStart → connectToKDC` hook is absent, so the KDC
connection is never initiated. -/
theorem C10_no_probes_no_hooks (config : PluginConfig)
    (h : config.probes = none ∨ config.probes = some []) :
    initHooks config = .ok emptyHooks ∧ ∀ e, emptyHooks e = none := by
  refine ⟨?_, fun e => rfl⟩
  rcases h with h | h <;> simp [initHooks, configureProbes, h, configureList]

/-- C10 witness: the theorem at the concrete configuration with an absent
probes mapping. -/
theorem C10_witness :
    initHooks { probes := none } = .ok emptyHooks ∧ ∀ e, emptyHooks e = none :=
  C10_no_probes_no_hooks { probes := none } (Or.inl rfl)

end ProbeListener
